import Mathlib

/-!
Shallow embedding of the scheduled-publish task queue of `server.py` and
`worker.py`: the `tasks` table, the admission/listing/cancellation HTTP
handlers, the in-process worker (`run_task_publish`, `worker_loop`) and the
standalone worker (`mark`, `fetch_due_tasks`, the per-task body of `main`).

External collaborators are abstracted as oracles:
* `parse` stands for `parse_iso` (which delegates to
  `datetime.fromisoformat`): `some d` means parsing succeeds and yields the
  instant `d`, `none` means it raises.  Both files share this helper; the
  standalone worker's extra `astimezone` call never raises.
* `PubOracle` stands for the Blogger `posts().insert(...).execute()` call:
  `.ok u` is a created post whose `url` field is `u` (`none` when the field
  is absent), `.error e` is a raised exception with message `e`.
* the audit timestamp strings produced by `utc_now_iso()` and
  `iso_utc(now_utc())` are abstracted to a string parameter; no property
  below depends on their successive values.

A SQLite row of the `tasks` table (see `db_init`); `result_url` and `error`
are nullable columns, modelled with `Option String`; the NOT NULL text
columns are plain `String`.
-/

structure TaskRow where
  id : Nat
  platform : String
  blog_id : String
  blog_url : String
  title : String
  html : String
  run_at : String
  status : String
  created_at : String
  updated_at : String
  result_url : Option String
  error : Option String
deriving Repr, DecidableEq

abbrev Store := List TaskRow

abbrev Instant := Int

/-- Oracle for the external Blogger insert call: arguments are
`blog_id`, `title`, `html`; success carries the created post's optional
`url`, failure carries the exception message. -/
abbrev PubOracle := String → String → String → Except String (Option String)

/-- SQL `UPDATE tasks SET ... WHERE id=?`: rewrites every row whose id
matches, leaving the rest untouched. -/
def updateWhereId (st : Store) (id : Nat) (f : TaskRow → TaskRow) : Store :=
  st.map fun t => if t.id = id then f t else t

/-- Python truthiness default `(x or d)` for optional JSON string fields:
`None` and `""` both fall back to the default. -/
def pyOr (o : Option String) (d : String) : String :=
  match o with
  | none => d
  | some s => if s = "" then d else s

/-- Python `str.strip()`: drop leading and trailing whitespace.  Modelled
directly on the character list so that it is kernel-computable. -/
def pyStrip (s : String) : String :=
  ⟨((s.data.dropWhile Char.isWhitespace).reverse.dropWhile Char.isWhitespace).reverse⟩

/-! server.py: worker internals -/

/-- server.py `run_task_publish` (lines 810-835): platform gate, OAuth
check, `blog_id` check, then the Blogger call with its `try/except`
converting any exception into a failure triple.  Returns
`(success, result_url, error_message)`. -/
def run_task_publish (svc : Option PubOracle) (r : TaskRow) : Bool × String × String :=
  if r.platform ≠ "blogspot" then
    (false, "", "Unsupported platform: " ++ r.platform)
  else
    match svc with
    | none => (false, "", "OAuth not connected")
    | some pub =>
      if r.blog_id = "" then
        (false, "", "blog_id missing")
      else
        match pub r.blog_id r.title r.html with
        | .ok created => (true, created.getD "", "")
        | .error e => (false, "", "Blogger post error: " ++ e)

/-- server.py `worker_loop` lines 845-854: `SELECT * FROM tasks WHERE
status='pending' ORDER BY id ASC LIMIT 10`. -/
def selectPendingById (st : Store) : List TaskRow :=
  ((st.filter fun t => t.status = "pending").insertionSort fun a b => a.id ≤ b.id).take 10

/-- server.py `worker_loop` lines 867-869: `UPDATE tasks SET status=?,
updated_at=? WHERE id=?` with `("running", now, r["id"])`. -/
def markRunningServer (st : Store) (id : Nat) (nowIso : String) : Store :=
  updateWhereId st id fun t => { t with status := "running", updated_at := nowIso }

/-- server.py `worker_loop` lines 874-885: the terminal `UPDATE`; on
success `status='ok'`, `result_url=url`, `error=NULL`; on failure
`status='err'`, `result_url=''`, `error=message`. -/
def finishUpdate (st : Store) (id : Nat) (success : Bool) (result_url error_msg : String)
    (nowIso : String) : Store :=
  if success then
    updateWhereId st id fun t =>
      { t with status := "ok", result_url := some result_url, error := none,
               updated_at := nowIso }
  else
    updateWhereId st id fun t =>
      { t with status := "err", result_url := some "", error := some error_msg,
               updated_at := nowIso }

/-- server.py `worker_loop` lines 857-885, the body of `for r in rows`: skip
rows whose `run_at` is in the future (a row whose `run_at` fails to parse
gets `run_at_dt = now_dt` and is not skipped), otherwise mark running,
publish, and write the terminal row.  The second component logs each status
write `(id, status)` in order, for stating write-order properties. -/
def processRow (parse : String → Option Instant) (now : Instant) (nowIso : String)
    (svc : Option PubOracle) (acc : Store × List (Nat × String)) (r : TaskRow) :
    Store × List (Nat × String) :=
  let run_at_dt := (parse r.run_at).getD now
  if now < run_at_dt then acc
  else
    let st1 := markRunningServer acc.1 r.id nowIso
    let res := run_task_publish svc r
    (finishUpdate st1 r.id res.1 res.2.1 res.2.2 nowIso,
     acc.2 ++ [(r.id, "running"), (r.id, if res.1 then "ok" else "err")])

/-- One iteration of server.py `worker_loop` (lines 841-887): fetch the
pending rows once, then process each in order. -/
def worker_loop_body (parse : String → Option Instant) (now : Instant) (nowIso : String)
    (svc : Option PubOracle) (st : Store) : Store × List (Nat × String) :=
  (selectPendingById st).foldl (processRow parse now nowIso svc) (st, [])

/-- Due test of server.py `worker_loop` lines 858-864 as a Boolean: a row is
processed unless its parsed `run_at` is strictly in the future; a row whose
`run_at` fails to parse is processed immediately. -/
def dueNow (parse : String → Option Instant) (now : Instant) (r : TaskRow) : Bool :=
  !(decide (now < (parse r.run_at).getD now))

/-- The subsequence of selected rows that one `worker_loop` iteration
actually executes (proved below to generate exactly the iteration's write
log). -/
def executedRows (parse : String → Option Instant) (now : Instant) (st : Store) : List TaskRow :=
  (selectPendingById st).filter (dueNow parse now)

/-! server.py: HTTP task API -/

/-- JSON body of a request to `/api/tasks/add`; absent keys are `none`. -/
structure AddReq where
  platform : Option String
  blog_id : Option String
  blog_url : Option String
  title : Option String
  html : Option String
  run_at : Option String
deriving Repr, DecidableEq

/-- Response of the task handlers: `ok` mirrors the `ok({...})` helper,
`err` mirrors the `err(message, status)` helper (payload `ok: false` plus an
error message, served with the given HTTP status). -/
inductive ApiResp where
  | ok (id : Nat)
  | err (status : Nat) (msg : String)
deriving Repr, DecidableEq

/-- Whether a response came from the `err(...)` helper. -/
def ApiResp.isErr : ApiResp → Bool
  | .err _ _ => true
  | .ok _ => false

/-- SQLite AUTOINCREMENT id for a fresh row. -/
def nextId (st : Store) : Nat :=
  st.foldr (fun t m => max t.id m) 0 + 1

/-- server.py `api_tasks_add` (lines 714-746): strip the inputs (platform
defaulting to `"blogspot"`), require `title`, `html`, `run_at` non-blank,
validate `run_at` with `parse_iso`, then insert a `pending` row.  Returns
the store after the call together with the HTTP response. -/
def api_tasks_add (parse : String → Option Instant) (nowIso : String) (st : Store)
    (req : AddReq) : Store × ApiResp :=
  let platform := pyStrip (pyOr req.platform "blogspot")
  let blog_id := pyStrip (pyOr req.blog_id "")
  let blog_url := pyStrip (pyOr req.blog_url "")
  let title := pyStrip (pyOr req.title "")
  let html := pyStrip (pyOr req.html "")
  let run_at := pyStrip (pyOr req.run_at "")
  if title = "" ∨ html = "" ∨ run_at = "" then
    (st, ApiResp.err 400 "title, html, run_at(ISO)이 필요합니다.")
  else
    match parse run_at with
    | none => (st, ApiResp.err 400 "run_at 형식이 올바르지 않습니다. 예) 2026-01-25T03:00:00.000Z")
    | some _ =>
      (st ++ [{ id := nextId st, platform := platform, blog_id := blog_id,
                blog_url := blog_url, title := title, html := html, run_at := run_at,
                status := "pending", created_at := nowIso, updated_at := nowIso,
                result_url := none, error := none }],
       ApiResp.ok (nextId st))

/-- Row projection served by `/api/tasks/list` (lines 753-779): every
selected column — and only those; the `html` column is not selected. -/
structure TaskItem where
  id : Nat
  platform : String
  blog_id : String
  blog_url : String
  title : String
  run_at : String
  status : String
  result_url : Option String
  error : Option String
  created_at : String
  updated_at : String
deriving Repr, DecidableEq

/-- The per-row projection built in the `for r in rows` loop of
`api_tasks_list`. -/
def taskItem (t : TaskRow) : TaskItem :=
  { id := t.id, platform := t.platform, blog_id := t.blog_id, blog_url := t.blog_url,
    title := t.title, run_at := t.run_at, status := t.status, result_url := t.result_url,
    error := t.error, created_at := t.created_at, updated_at := t.updated_at }

/-- server.py `api_tasks_list` (lines 749-780): `ORDER BY id DESC LIMIT
200`, then the projection. -/
def api_tasks_list (st : Store) : List TaskItem :=
  (((st.insertionSort fun a b => b.id ≤ a.id)).take 200).map taskItem

/-- SQL `SELECT ... FROM tasks WHERE id=?` followed by `fetchone()`. -/
def lookupId (st : Store) (id : Nat) : Option TaskRow :=
  (st.filter fun t => t.id = id).head?

/-- server.py `api_tasks_cancel` (lines 783-804): 404 if the row is
missing, 400 if its status is not `pending`, otherwise set
`status='canceled'` and answer `ok`. -/
def api_tasks_cancel (nowIso : String) (st : Store) (task_id : Nat) : Store × ApiResp :=
  match lookupId st task_id with
  | none => (st, ApiResp.err 404 "task not found")
  | some row =>
    if row.status ≠ "pending" then
      (st, ApiResp.err 400 "pending 상태만 취소할 수 있습니다.")
    else
      (updateWhereId st task_id fun t => { t with status := "canceled", updated_at := nowIso },
       ApiResp.ok task_id)

/-! worker.py: the standalone worker -/

/-- worker.py `mark` (lines 68-74): `UPDATE tasks SET status=?,
result_url=?, error=?, updated_at=? WHERE id=?`; `result_url` and `error`
default to `""` at call sites that omit them. -/
def mark (st : Store) (task_id : Nat) (status result_url error : String)
    (nowIso : String) : Store :=
  updateWhereId st task_id fun t =>
    { t with status := status, result_url := some result_url, error := some error,
             updated_at := nowIso }

/-- worker.py `fetch_due_tasks` (lines 76-91): `SELECT * FROM tasks WHERE
status='pending' ORDER BY run_at ASC LIMIT ?`, then keep a row when
`parse_iso(run_at) <= now`, and also — via the `except` branch — when
parsing raises. -/
def fetch_due_tasks (parse : String → Option Instant) (now : Instant) (limit : Nat)
    (st : Store) : List TaskRow :=
  (((st.filter fun t => t.status = "pending").insertionSort
      fun a b => a.run_at ≤ b.run_at).take limit).filter fun r =>
    match parse r.run_at with
    | some d => decide (d ≤ now)
    | none => true

/-- worker.py `main`, body of `for r in due` (lines 113-134): strip the
fields; a blank `blog_id`/`title`/`html` is marked `err` at once; otherwise
mark `running` (which also writes `result_url=''`, `error=''`), publish,
and mark `ok` or `err`.  The second component logs each status write. -/
def workerPyStep (pub : PubOracle) (nowIso : String)
    (acc : Store × List (Nat × String)) (r : TaskRow) : Store × List (Nat × String) :=
  let blog_id := pyStrip r.blog_id
  let title := pyStrip r.title
  let html := pyStrip r.html
  if blog_id = "" ∨ title = "" ∨ html = "" then
    (mark acc.1 r.id "err" "" "missing blog_id/title/html" nowIso,
     acc.2 ++ [(r.id, "err")])
  else
    let st1 := mark acc.1 r.id "running" "" "" nowIso
    match pub blog_id title html with
    | .ok res =>
      (mark st1 r.id "ok" (res.getD "") "" nowIso,
       acc.2 ++ [(r.id, "running"), (r.id, "ok")])
    | .error e =>
      (mark st1 r.id "err" "" e nowIso,
       acc.2 ++ [(r.id, "running"), (r.id, "err")])

/-! Order instances for the SQL `ORDER BY` relations -/

instance : IsTotal TaskRow fun a b => a.id ≤ b.id :=
  ⟨fun a b => Nat.le_total a.id b.id⟩

instance : IsTrans TaskRow fun a b => a.id ≤ b.id :=
  ⟨fun _ _ _ h h2 => Nat.le_trans h h2⟩

instance : IsTotal TaskRow fun a b => b.id ≤ a.id :=
  ⟨fun a b => Nat.le_total b.id a.id⟩

instance : IsTrans TaskRow fun a b => b.id ≤ a.id :=
  ⟨fun _ _ _ h h2 => Nat.le_trans h2 h⟩

instance : IsTotal TaskRow fun a b => a.run_at ≤ b.run_at :=
  ⟨fun a b => le_total a.run_at b.run_at⟩

instance : IsTrans TaskRow fun a b => a.run_at ≤ b.run_at :=
  ⟨fun _ _ _ h h2 => le_trans h h2⟩

/-! Helper lemmas about the store operations -/

theorem mem_updateWhereId_self {st : Store} {id : Nat} {f : TaskRow → TaskRow} {t : TaskRow}
    (ht : t ∈ st) (hid : t.id = id) : f t ∈ updateWhereId st id f := by
  unfold updateWhereId
  exact List.mem_map.mpr ⟨t, ht, by rw [if_pos hid]⟩

theorem mem_updateWhereId_other {st : Store} {id : Nat} {f : TaskRow → TaskRow} {t : TaskRow}
    (ht : t ∈ st) (hid : t.id ≠ id) : t ∈ updateWhereId st id f := by
  unfold updateWhereId
  exact List.mem_map.mpr ⟨t, ht, by rw [if_neg hid]⟩

theorem of_mem_updateWhereId {st : Store} {id : Nat} {f : TaskRow → TaskRow} {t : TaskRow}
    (ht : t ∈ updateWhereId st id f) (hid : t.id = id) :
    ∃ u, u ∈ st ∧ u.id = id ∧ t = f u := by
  unfold updateWhereId at ht
  rcases List.mem_map.mp ht with ⟨u, hu, he⟩
  by_cases h : u.id = id
  · rw [if_pos h] at he
    exact ⟨u, hu, h, he.symm⟩
  · rw [if_neg h] at he
    subst he
    exact absurd hid h

theorem length_updateWhereId (st : Store) (id : Nat) (f : TaskRow → TaskRow) :
    (updateWhereId st id f).length = st.length :=
  List.length_map st _

theorem length_finishUpdate (st : Store) (id : Nat) (success : Bool) (u m nowIso : String) :
    (finishUpdate st id success u m nowIso).length = st.length := by
  unfold finishUpdate
  by_cases h : success <;> simp [h, length_updateWhereId]

/-- The status writes one `worker_loop` iteration performs for a list of
executed rows: `running` then the terminal status, task by task. -/
def writeLog (svc : Option PubOracle) : List TaskRow → List (Nat × String)
  | [] => []
  | r :: rs =>
    (r.id, "running") ::
      (r.id, if (run_task_publish svc r).1 then "ok" else "err") :: writeLog svc rs

theorem foldl_processRow_log (parse : String → Option Instant) (now : Instant)
    (nowIso : String) (svc : Option PubOracle) (rows : List TaskRow) :
    ∀ acc : Store × List (Nat × String),
      (rows.foldl (processRow parse now nowIso svc) acc).2 =
        acc.2 ++ writeLog svc (rows.filter (dueNow parse now)) := by
  induction rows with
  | nil => intro acc; simp [writeLog]
  | cons r rows ih =>
    intro acc
    rw [List.foldl_cons, ih]
    by_cases h : now < (parse r.run_at).getD now
    · have hd : dueNow parse now r = false := by simp [dueNow, h]
      simp [processRow, h, hd, List.filter_cons]
    · have hd : dueNow parse now r = true := by simp [dueNow, h]
      simp [processRow, h, hd, List.filter_cons, writeLog]

theorem foldl_processRow_length (parse : String → Option Instant) (now : Instant)
    (nowIso : String) (svc : Option PubOracle) (rows : List TaskRow) :
    ∀ acc : Store × List (Nat × String),
      (rows.foldl (processRow parse now nowIso svc) acc).1.length = acc.1.length := by
  induction rows with
  | nil => intro acc; simp
  | cons r rows ih =>
    intro acc
    rw [List.foldl_cons, ih]
    by_cases h : now < (parse r.run_at).getD now
    · simp [processRow, h]
    · simp [processRow, h, length_finishUpdate, markRunningServer, length_updateWhereId]

theorem worker_loop_body_log (parse : String → Option Instant) (now : Instant)
    (nowIso : String) (svc : Option PubOracle) (st : Store) :
    (worker_loop_body parse now nowIso svc st).2 =
      writeLog svc (executedRows parse now st) := by
  unfold worker_loop_body executedRows
  rw [foldl_processRow_log]
  rfl

theorem mem_selectPendingById {st : Store} {r : TaskRow} (h : r ∈ selectPendingById st) :
    r ∈ st ∧ r.status = "pending" := by
  unfold selectPendingById at h
  have h2 := (List.take_sublist 10 _).subset h
  rw [List.mem_insertionSort] at h2
  have h3 := List.mem_filter.mp h2
  exact ⟨h3.1, by simpa using h3.2⟩

theorem mem_executedRows {parse : String → Option Instant} {now : Instant} {st : Store}
    {r : TaskRow} (h : r ∈ executedRows parse now st) :
    r ∈ st ∧ r.status = "pending" ∧ dueNow parse now r = true := by
  unfold executedRows at h
  have h2 := List.mem_filter.mp h
  exact ⟨(mem_selectPendingById h2.1).1, (mem_selectPendingById h2.1).2, h2.2⟩

theorem lookupId_unique (id : Nat) :
    ∀ st : Store, (st.map TaskRow.id).Nodup →
      ∀ t ∈ st, t.id = id → lookupId st id = some t := by
  intro st
  induction st with
  | nil => intro _ t ht; cases ht
  | cons a st ih =>
    intro hN t ht hid
    rw [List.map_cons, List.nodup_cons] at hN
    rcases List.mem_cons.mp ht with rfl | ht2
    · unfold lookupId
      rw [List.filter_cons, if_pos (by simpa using hid)]
      rfl
    · by_cases ha : a.id = id
      · exfalso
        apply hN.1
        have : t.id ∈ st.map TaskRow.id := List.mem_map_of_mem TaskRow.id ht2
        rwa [hid, ← ha] at this
      · unfold lookupId
        rw [List.filter_cons, if_neg (by simpa using ha)]
        exact ih hN.2 t ht2 hid

theorem lit_append_ne_empty {s : String} (t : String) (h : 0 < s.length) : s ++ t ≠ "" := by
  intro he
  have hl := congrArg String.length he
  rw [String.length_append] at hl
  have h0 : ("" : String).length = 0 := rfl
  omega

/-! Concrete fixtures for witnesses and counterexamples -/

/-- Sample parse oracle: exactly one well-formed timestamp string parses. -/
def parse0 : String → Option Instant := fun s =>
  if s = "2020-01-01T00:00:00Z" then some 0 else none

/-- Sample parse oracle distinguishing an early and a late timestamp. -/
def parse1 : String → Option Instant := fun s =>
  if s = "early" then some 5 else if s = "late" then some 10 else none

def goodTask : TaskRow :=
  { id := 1, platform := "blogspot", blog_id := "B1", blog_url := "", title := "T",
    html := "<p>x</p>", run_at := "2020-01-01T00:00:00Z", status := "pending",
    created_at := "c", updated_at := "c", result_url := none, error := none }

def canceledTask : TaskRow := { goodTask with status := "canceled" }

def badTask : TaskRow := { goodTask with run_at := "not-a-date" }

def pubThrow : PubOracle := fun _ _ _ => .error "boom"

def reqNoPlat : AddReq :=
  { platform := none, blog_id := some "B1", blog_url := none, title := some "T",
    html := some "<p>x</p>", run_at := some "2020-01-01T00:00:00Z" }

/-- The row `api_tasks_add parse0 "n" [] reqNoPlat` inserts. -/
def newTask : TaskRow :=
  { id := 1, platform := "blogspot", blog_id := "B1", blog_url := "", title := "T",
    html := "<p>x</p>", run_at := "2020-01-01T00:00:00Z", status := "pending",
    created_at := "n", updated_at := "n", result_url := none, error := none }

/-! C1 -/

/-- C1 is refuted: the pending→running update of `worker_loop` (server.py
lines 867-869) carries no status-pending predicate.  On a store whose only
task is already `canceled`, the update still flips it to `running`, so the
claimed WHERE-status-pending guard does not exist in the code. -/
theorem C1_counterexample :
    canceledTask.status = "canceled" ∧
      (markRunningServer [canceledTask] 1 "n").map TaskRow.status = ["running"] :=
  ⟨rfl, rfl⟩

/-- C1 (amended): the claim step `UPDATE tasks SET status='running' WHERE
id=?` (server.py lines 867-869), and likewise worker.py
`mark(conn, id, "running")`, is keyed only on `id`: every row with that id
is set to `running` whatever its current status (rows with other ids are
untouched); no WHERE-status-pending guard exists, so this step by itself
does not enforce at most one winner between racing executions. -/
theorem C1_amended_thm (st : Store) (id : Nat) (nowIso : String) :
    (∀ t ∈ st, t.id = id →
      ({ t with status := "running", updated_at := nowIso } : TaskRow) ∈
        markRunningServer st id nowIso) ∧
    (∀ t ∈ st, t.id ≠ id → t ∈ markRunningServer st id nowIso) ∧
    (∀ t ∈ st, t.id = id →
      ({ t with status := "running", result_url := some "", error := some "",
                updated_at := nowIso } : TaskRow) ∈ mark st id "running" "" "" nowIso) := by
  refine ⟨fun t ht hid => ?_, fun t ht hid => ?_, fun t ht hid => ?_⟩
  · exact mem_updateWhereId_self ht hid
  · exact mem_updateWhereId_other ht hid
  · exact mem_updateWhereId_self ht hid

theorem C1_witness :
    ({ goodTask with status := "running", updated_at := "n" } : TaskRow) ∈
      markRunningServer [goodTask] 1 "n" ∧
    ({ goodTask with status := "running", result_url := some "", error := some "",
                     updated_at := "n" } : TaskRow) ∈ mark [goodTask] 1 "running" "" "" "n" :=
  ⟨(C1_amended_thm [goodTask] 1 "n").1 goodTask (by simp) rfl,
   (C1_amended_thm [goodTask] 1 "n").2.2 goodTask (by simp) rfl⟩

/-! C2 -/

/-- C2 is refuted: a stored pending task whose `run_at` does not parse is
eligible — `fetch_due_tasks` returns it (worker.py lines 85-90, the
`except: due.append(r)` branch), contradicting the claim that a task with
unparseable `scheduled_at` is never eligible for execution. -/
theorem C2_counterexample :
    parse0 badTask.run_at = none ∧ badTask.status = "pending" ∧
      fetch_due_tasks parse0 0 5 [badTask] = [badTask] :=
  ⟨rfl, rfl, by decide⟩

/-- C2 (amended): both due-task selections return only `pending` tasks, and
only tasks whose `run_at` parses to an instant at or before `now` — or
fails to parse, in which case the code treats the task as immediately due;
admission (`api_tasks_add`) rejects an unparseable `run_at`, so every task
it creates has a parseable `run_at` and the unparseable case is unreachable
through the API. -/
theorem C2_amended_thm :
    (∀ (parse : String → Option Instant) (now : Instant) (limit : Nat) (st : Store)
        (r : TaskRow), r ∈ fetch_due_tasks parse now limit st →
          r.status = "pending" ∧
            ((∃ d, parse r.run_at = some d ∧ d ≤ now) ∨ parse r.run_at = none)) ∧
    (∀ (parse : String → Option Instant) (now : Instant) (st : Store) (r : TaskRow),
        r ∈ executedRows parse now st →
          r.status = "pending" ∧
            ((∃ d, parse r.run_at = some d ∧ d ≤ now) ∨ parse r.run_at = none)) ∧
    (∀ (parse : String → Option Instant) (nowIso : String) (st : Store) (req : AddReq)
        (t : TaskRow), t ∈ (api_tasks_add parse nowIso st req).1 → t ∉ st →
          (parse t.run_at).isSome = true) := by
  refine ⟨?_, ?_, ?_⟩
  · intro parse now limit st r hr
    unfold fetch_due_tasks at hr
    have h2 := List.mem_filter.mp hr
    have hmem := (List.take_sublist limit _).subset h2.1
    rw [List.mem_insertionSort] at hmem
    have hstat := (List.mem_filter.mp hmem).2
    refine ⟨by simpa using hstat, ?_⟩
    have hdue := h2.2
    cases hp : parse r.run_at with
    | some d =>
      rw [hp] at hdue
      simp only [decide_eq_true_eq] at hdue
      exact Or.inl ⟨d, rfl, hdue⟩
    | none => exact Or.inr rfl
  · intro parse now st r hr
    obtain ⟨-, hstat, hdue⟩ := mem_executedRows hr
    refine ⟨hstat, ?_⟩
    unfold dueNow at hdue
    cases hp : parse r.run_at with
    | some d =>
      rw [hp] at hdue
      simp only [Option.getD_some, Bool.not_eq_true', decide_eq_false_iff_not, not_lt] at hdue
      exact Or.inl ⟨d, rfl, hdue⟩
    | none => exact Or.inr rfl
  · intro parse nowIso st req t ht hnot
    simp only [api_tasks_add] at ht
    split at ht
    · exact absurd ht hnot
    · split at ht
      · exact absurd ht hnot
      · next d hp =>
        rcases List.mem_append.mp ht with h1 | h2
        · exact absurd h1 hnot
        · have he := List.mem_singleton.mp h2
          subst he
          show (parse (pyStrip (pyOr req.run_at ""))).isSome = true
          rw [hp]
          rfl

theorem C2_witness :
    (goodTask.status = "pending" ∧
      ((∃ d, parse0 goodTask.run_at = some d ∧ d ≤ (0 : Instant)) ∨
        parse0 goodTask.run_at = none)) ∧
    (parse0 newTask.run_at).isSome = true :=
  ⟨C2_amended_thm.1 parse0 0 5 [goodTask] goodTask (by decide),
   C2_amended_thm.2.2 parse0 "n" [] reqNoPlat newTask (by decide) (by decide)⟩

/-! C3 -/

/-- Write logs in which every terminal write (`ok`/`err`) for a task is
immediately preceded by a `running` write for the same task. -/
inductive RunThenTerm : List (Nat × String) → Prop
  | nil : RunThenTerm []
  | block (id : Nat) (term : String) (rest : List (Nat × String)) :
      (term = "ok" ∨ term = "err") → RunThenTerm rest →
      RunThenTerm ((id, "running") :: (id, term) :: rest)

theorem runThenTerm_writeLog (svc : Option PubOracle) :
    ∀ rows : List TaskRow, RunThenTerm (writeLog svc rows)
  | [] => .nil
  | r :: rs =>
    .block r.id _ _
      (by by_cases h : (run_task_publish svc r).1 <;> simp [h])
      (runThenTerm_writeLog svc rs)

def mfTask : TaskRow := { goodTask with blog_id := "" }

def mfTask2 : TaskRow := { goodTask with id := 3, title := " " }

/-- The row `workerPyStep` writes for `mfTask2`. -/
def mfErrTask : TaskRow :=
  { mfTask2 with status := "err", result_url := some "",
                 error := some "missing blog_id/title/html", updated_at := "n" }

/-- C3 is refuted: worker.py `main` (lines 119-121) marks a due task with a
blank `blog_id` as terminal `err` straight from `pending` — the write log
contains no `running` write — contradicting the claim that no task moves
from pending directly to a terminal status. -/
theorem C3_counterexample :
    mfTask.status = "pending" ∧
      (workerPyStep pubThrow "n" ([mfTask], []) mfTask).2 = [(1, "err")] ∧
      (workerPyStep pubThrow "n" ([mfTask], []) mfTask).1.map TaskRow.status = ["err"] := by
  decide

/-- C3 (amended): in the server worker loop every terminal write is
immediately preceded by a `running` write for the same task (so terminal
states are only written from `running` there), but worker.py `main` marks a
task whose stripped `blog_id`/`title`/`html` is blank as `err` directly,
with no `running` write — such a task moves from `pending` straight to a
terminal status. -/
theorem C3_amended_thm :
    (∀ (parse : String → Option Instant) (now : Instant) (nowIso : String)
        (svc : Option PubOracle) (st : Store),
        RunThenTerm (worker_loop_body parse now nowIso svc st).2) ∧
    (∀ (pub : PubOracle) (nowIso : String) (acc : Store × List (Nat × String)) (r : TaskRow),
        (pyStrip r.blog_id = "" ∨ pyStrip r.title = "" ∨ pyStrip r.html = "") →
          (workerPyStep pub nowIso acc r).2 = acc.2 ++ [(r.id, "err")] ∧
          ∀ t ∈ (workerPyStep pub nowIso acc r).1, t.id = r.id →
            t.status = "err" ∧ t.error = some "missing blog_id/title/html") := by
  constructor
  · intro parse now nowIso svc st
    rw [worker_loop_body_log]
    exact runThenTerm_writeLog svc _
  · intro pub nowIso acc r h
    simp only [workerPyStep]
    rw [if_pos h]
    refine ⟨rfl, ?_⟩
    intro t ht hid
    obtain ⟨u, -, -, he⟩ := of_mem_updateWhereId ht hid
    subst he
    exact ⟨rfl, rfl⟩

theorem C3_witness :
    (workerPyStep pubThrow "n" ([mfTask2], []) mfTask2).2 = [] ++ [(3, "err")] ∧
      mfErrTask.status = "err" ∧ mfErrTask.error = some "missing blog_id/title/html" :=
  ⟨(C3_amended_thm.2 pubThrow "n" ([mfTask2], []) mfTask2 (by decide)).1,
   (C3_amended_thm.2 pubThrow "n" ([mfTask2], []) mfTask2 (by decide)).2
     mfErrTask (by decide) rfl⟩

/-! C4 -/

def reqEmptyDest : AddReq :=
  { platform := some "blogspot", blog_id := some "", blog_url := none, title := some "T",
    html := some "<p>x</p>", run_at := some "2020-01-01T00:00:00Z" }

/-- C4 is refuted: `api_tasks_add` does not validate the destination — a
request whose `blog_id` is empty is accepted and a task record is created
(server.py line 724 only requires `title`, `html`, `run_at`). -/
theorem C4_counterexample :
    pyOr reqEmptyDest.blog_id "" = "" ∧
      (api_tasks_add parse0 "n" [] reqEmptyDest).2 = ApiResp.ok 1 ∧
      (api_tasks_add parse0 "n" [] reqEmptyDest).1.length = 1 := by
  decide

/-- C4 (amended): task creation rejects synchronously with a 400 error —
leaving the store unchanged, so no task record is created — exactly when
the stripped `title`, `content` (`html`) or `scheduled_at` (`run_at`) is
empty or `run_at` fails parsing; in particular `run_at="not-a-date"` is
rejected with no task created.  The destination (`blog_id`) is not
validated at admission. -/
theorem C4_amended_thm (parse : String → Option Instant) (nowIso : String) (st : Store)
    (req : AddReq) :
    ((api_tasks_add parse nowIso st req).1 = st ∧
        ((api_tasks_add parse nowIso st req).2).isErr = true) ↔
      (pyStrip (pyOr req.title "") = "" ∨ pyStrip (pyOr req.html "") = "" ∨
        pyStrip (pyOr req.run_at "") = "" ∨ parse (pyStrip (pyOr req.run_at "")) = none) := by
  simp only [api_tasks_add]
  by_cases h : pyStrip (pyOr req.title "") = "" ∨ pyStrip (pyOr req.html "") = "" ∨
      pyStrip (pyOr req.run_at "") = ""
  · rw [if_pos h]
    simp only [ApiResp.isErr, true_and, true_iff]
    tauto
  · rw [if_neg h]
    cases hp : parse (pyStrip (pyOr req.run_at "")) with
    | none => simp [ApiResp.isErr, h, hp]
    | some d => simp [ApiResp.isErr, h, hp]

/-! C5 -/

/-- The store after a successful finish of a running task. -/
def st5a : Store :=
  finishUpdate [{ goodTask with status := "running" }] 1 true "http://x/1" "" "n1"

/-- The same store after a second, contradictory finish on the same id. -/
def st5b : Store := finishUpdate st5a 1 false "" "boom" "n2"

/-- C5 is refuted in its second half: nothing guards a second terminal
write — a later finish on an already-finished task is neither rejected nor
a no-op; it overwrites status, `result_url` and `error` (server.py lines
874-885 update by id unconditionally). -/
theorem C5_counterexample :
    st5a.map TaskRow.status = ["ok"] ∧ st5b.map TaskRow.status = ["err"] ∧ st5a ≠ st5b := by
  decide

theorem run_task_publish_ok_or_msg (svc : Option PubOracle) (r : TaskRow) :
    (run_task_publish svc r).1 = true ∨ (run_task_publish svc r).2.2 ≠ "" := by
  unfold run_task_publish
  by_cases hp : r.platform ≠ "blogspot"
  · rw [if_pos hp]
    exact Or.inr (lit_append_ne_empty r.platform (by decide))
  · rw [if_neg hp]
    cases svc with
    | none =>
      dsimp only
      exact Or.inr (by decide)
    | some pub =>
      dsimp only
      by_cases hb : r.blog_id = ""
      · rw [if_pos hb]
        exact Or.inr (by decide)
      · rw [if_neg hb]
        cases hres : pub r.blog_id r.title r.html with
        | ok created => exact Or.inl rfl
        | error e => exact Or.inr (lit_append_ne_empty e (by decide))

/-- C5 (amended): a terminal write in the server worker loop sets exactly
one of `result_url`/`error`: on success `status='ok'`, `result_url` is the
returned url and `error` is cleared to NULL; on failure `status='err'`,
`result_url` is set to `""` and `error` to the (always nonempty) message
produced by `run_task_publish`.  The write-once half of the claim fails:
nothing rejects a second finish (see the counterexample). -/
theorem C5_amended_thm (svc : Option PubOracle) (r : TaskRow) (st : Store) (id : Nat)
    (nowIso : String) (t : TaskRow)
    (ht : t ∈ finishUpdate st id (run_task_publish svc r).1 (run_task_publish svc r).2.1
            (run_task_publish svc r).2.2 nowIso)
    (hid : t.id = id) :
    ((run_task_publish svc r).1 = true →
      t.status = "ok" ∧ t.result_url = some (run_task_publish svc r).2.1 ∧ t.error = none) ∧
    ((run_task_publish svc r).1 = false →
      t.status = "err" ∧ t.result_url = some "" ∧
        t.error = some (run_task_publish svc r).2.2 ∧ (run_task_publish svc r).2.2 ≠ "") := by
  constructor
  · intro hs
    unfold finishUpdate at ht
    rw [if_pos hs] at ht
    obtain ⟨u, -, -, he⟩ := of_mem_updateWhereId ht hid
    subst he
    exact ⟨rfl, rfl, rfl⟩
  · intro hs
    unfold finishUpdate at ht
    rw [if_neg (by simp [hs])] at ht
    obtain ⟨u, -, -, he⟩ := of_mem_updateWhereId ht hid
    subst he
    refine ⟨rfl, rfl, rfl, ?_⟩
    rcases run_task_publish_ok_or_msg svc r with h | h
    · rw [hs] at h
      cases h
    · exact h

/-- The row `finishUpdate` writes when an OAuth-less publish fails. -/
def finTask : TaskRow :=
  { goodTask with status := "err", result_url := some "",
                  error := some "OAuth not connected", updated_at := "n" }

theorem C5_witness :
    finTask.status = "err" ∧ finTask.result_url = some "" ∧
      finTask.error = some (run_task_publish none goodTask).2.2 ∧
      (run_task_publish none goodTask).2.2 ≠ "" :=
  (C5_amended_thm none goodTask [goodTask] 1 "n" finTask (by decide) rfl).2 rfl

/-! C6 -/

/-- C6 confirmed: an exception raised inside the external publish call is
caught by `run_task_publish` (server.py lines 829-835) and converted into
a failed outcome that the loop records on the task (`status='err'`,
`error='Blogger post error: ...'`), and one `worker_loop` iteration runs to
completion over the whole batch for every publisher behaviour — the store
it returns still holds all its tasks, no exception escapes. -/
theorem C6_thm (pub : PubOracle) (e : String) (r : TaskRow)
    (hplat : r.platform = "blogspot") (hbid : ¬ r.blog_id = "")
    (hthrow : pub r.blog_id r.title r.html = .error e)
    (parse : String → Option Instant) (now : Instant) (nowIso : String)
    (acc : Store × List (Nat × String))
    (hdue : ¬ now < (parse r.run_at).getD now) :
    run_task_publish (some pub) r = (false, "", "Blogger post error: " ++ e) ∧
    (∀ t ∈ (processRow parse now nowIso (some pub) acc r).1, t.id = r.id →
      t.status = "err" ∧ t.error = some ("Blogger post error: " ++ e) ∧
        t.result_url = some "") ∧
    (∀ (svc : Option PubOracle) (st : Store),
      (worker_loop_body parse now nowIso svc st).1.length = st.length) := by
  have hrun : run_task_publish (some pub) r = (false, "", "Blogger post error: " ++ e) := by
    simp [run_task_publish, hplat, hbid, hthrow]
  refine ⟨hrun, ?_, ?_⟩
  · intro t ht hid
    simp only [processRow, hrun] at ht
    rw [if_neg hdue] at ht
    unfold finishUpdate at ht
    rw [if_neg (by simp)] at ht
    obtain ⟨u, -, -, he⟩ := of_mem_updateWhereId ht hid
    subst he
    exact ⟨rfl, rfl, rfl⟩
  · intro svc st
    unfold worker_loop_body
    rw [foldl_processRow_length]

/-- The row the loop records when the publish call throws `"boom"`. -/
def c6ErrTask : TaskRow :=
  { goodTask with status := "err", result_url := some "",
                  error := some ("Blogger post error: " ++ "boom"), updated_at := "n" }

theorem C6_witness :
    run_task_publish (some pubThrow) goodTask =
      (false, "", "Blogger post error: " ++ "boom") ∧
    (c6ErrTask.status = "err" ∧ c6ErrTask.error = some ("Blogger post error: " ++ "boom") ∧
      c6ErrTask.result_url = some "") ∧
    (worker_loop_body parse0 0 "n" none [goodTask]).1.length = 1 :=
  ⟨(C6_thm pubThrow "boom" goodTask rfl (by decide) rfl parse0 0 "n"
      ([goodTask], []) (by decide)).1,
   (C6_thm pubThrow "boom" goodTask rfl (by decide) rfl parse0 0 "n"
      ([goodTask], []) (by decide)).2.1 c6ErrTask (by decide) rfl,
   (C6_thm pubThrow "boom" goodTask rfl (by decide) rfl parse0 0 "n"
      ([goodTask], []) (by decide)).2.2 none [goodTask]⟩

/-! C7 -/

def tLate : TaskRow := { goodTask with id := 1, run_at := "late" }

def tEarly : TaskRow := { goodTask with id := 2, run_at := "early" }

/-- C7 is refuted: the server worker loop selects `ORDER BY id ASC`
(server.py line 850), not by `scheduled_at`.  With two due tasks whose id
order is the reverse of their scheduled order, the loop executes the
later-scheduled one first, so the batch is not returned in `scheduled_at`
ascending order. -/
theorem C7_counterexample :
    parse1 tLate.run_at = some 10 ∧ parse1 tEarly.run_at = some 5 ∧
      executedRows parse1 20 [tLate, tEarly] = [tLate, tEarly] ∧
      (worker_loop_body parse1 20 "n" none [tLate, tEarly]).2 =
        [(1, "running"), (1, "err"), (2, "running"), (2, "err")] := by
  decide

/-- C7 (amended): one server `worker_loop` batch executes its due tasks in
ascending `id` (insertion) order, not `scheduled_at` order; the standalone
worker's `fetch_due_tasks` returns its batch ordered by the `run_at` string
ascending (SQL `ORDER BY run_at ASC`, chronological only insofar as the
stored strings share a format; no id tie-break is specified). -/
theorem C7_amended_thm :
    (∀ (parse : String → Option Instant) (now : Instant) (st : Store),
      (executedRows parse now st).Pairwise fun a b => a.id ≤ b.id) ∧
    (∀ (parse : String → Option Instant) (now : Instant) (limit : Nat) (st : Store),
      (fetch_due_tasks parse now limit st).Pairwise fun a b => a.run_at ≤ b.run_at) := by
  constructor
  · intro parse now st
    have hs : List.Sorted (fun a b : TaskRow => a.id ≤ b.id)
        ((st.filter fun t => t.status = "pending").insertionSort fun a b => a.id ≤ b.id) :=
      List.sorted_insertionSort _ _
    exact List.Pairwise.sublist
      ((List.filter_sublist _).trans (List.take_sublist _ _)) hs
  · intro parse now limit st
    have hs : List.Sorted (fun a b : TaskRow => a.run_at ≤ b.run_at)
        ((st.filter fun t => t.status = "pending").insertionSort
          fun a b => a.run_at ≤ b.run_at) :=
      List.sorted_insertionSort _ _
    exact List.Pairwise.sublist
      ((List.filter_sublist _).trans (List.take_sublist _ _)) hs

/-! C8 -/

def okTask : TaskRow := { goodTask with status := "ok", result_url := some "http://x/1" }

/-- C8 is refuted in its response half: cancelling a task that is already
terminal — or missing — yields an `err(...)` response (HTTP 400 with a
message, resp. HTTP 404), produced by the same error helper as every other
failure, not a plain `ok=false` no-op signal (server.py lines 789-795). -/
theorem C8_counterexample :
    okTask.status = "ok" ∧
      api_tasks_cancel "n" [okTask] 1 =
        ([okTask], ApiResp.err 400 "pending 상태만 취소할 수 있습니다.") ∧
      api_tasks_cancel "n" [] 1 = ([], ApiResp.err 404 "task not found") := by
  decide

/-- C8 (amended): `Cancel(id)` sets `status='canceled'` only when the
looked-up row is currently `pending`, and then rewrites exactly the rows
with that id; when the task is missing it answers a 404 error, and when it
is not pending a 400 error, in both cases leaving the store unchanged — in
particular (for a store with unique ids) it never changes a `running` or
terminal task. -/
theorem C8_amended_thm (nowIso : String) (st : Store) (task_id : Nat) :
    (lookupId st task_id = none →
      api_tasks_cancel nowIso st task_id = (st, ApiResp.err 404 "task not found")) ∧
    (∀ row, lookupId st task_id = some row → row.status ≠ "pending" →
      api_tasks_cancel nowIso st task_id =
        (st, ApiResp.err 400 "pending 상태만 취소할 수 있습니다.")) ∧
    (∀ row, lookupId st task_id = some row → row.status = "pending" →
      api_tasks_cancel nowIso st task_id =
        (updateWhereId st task_id
            fun t => { t with status := "canceled", updated_at := nowIso },
          ApiResp.ok task_id)) ∧
    ((st.map TaskRow.id).Nodup → ∀ t ∈ st, t.status ≠ "pending" →
      t ∈ (api_tasks_cancel nowIso st task_id).1) := by
  refine ⟨?_, ?_, ?_, ?_⟩
  · intro h
    unfold api_tasks_cancel
    rw [h]
  · intro row h hs
    unfold api_tasks_cancel
    rw [h]
    dsimp only
    rw [if_pos hs]
  · intro row h hs
    unfold api_tasks_cancel
    rw [h]
    dsimp only
    rw [if_neg (by simp [hs])]
  · intro hN t ht hs
    unfold api_tasks_cancel
    cases hl : lookupId st task_id with
    | none => exact ht
    | some row =>
      dsimp only
      by_cases hrow : row.status ≠ "pending"
      · rw [if_pos hrow]
        exact ht
      · rw [if_neg hrow]
        push_neg at hrow
        by_cases hid : t.id = task_id
        · exfalso
          have hu := lookupId_unique task_id st hN t ht hid
          rw [hl] at hu
          injection hu with he
          exact hs (he ▸ hrow)
        · exact mem_updateWhereId_other ht hid

theorem C8_witness :
    api_tasks_cancel "n" [goodTask] 1 =
      (updateWhereId [goodTask] 1
          fun t => { t with status := "canceled", updated_at := "n" },
        ApiResp.ok 1) ∧
      okTask ∈ (api_tasks_cancel "n" [okTask] 1).1 :=
  ⟨(C8_amended_thm "n" [goodTask] 1).2.2.1 goodTask (by decide) rfl,
   (C8_amended_thm "n" [okTask] 1).2.2.2 (by decide) okTask (by decide) (by decide)⟩

/-! C9 -/

@[simp] theorem id_html_update (t : TaskRow) (s : String) :
    ({ t with html := s } : TaskRow).id = t.id := rfl

theorem orderedInsert_map_html (g : TaskRow → String) (a : TaskRow) :
    ∀ l : List TaskRow,
      (l.map fun t => { t with html := g t }).orderedInsert (fun a b => b.id ≤ a.id)
          { a with html := g a } =
        (l.orderedInsert (fun a b => b.id ≤ a.id) a).map fun t => { t with html := g t } := by
  intro l
  induction l with
  | nil => rfl
  | cons b l ih =>
    simp only [List.map_cons, List.orderedInsert, id_html_update]
    by_cases h : b.id ≤ a.id
    · rw [if_pos h, if_pos h]
      simp
    · rw [if_neg h, if_neg h, ih]
      simp

theorem insertionSort_map_html (g : TaskRow → String) :
    ∀ l : List TaskRow,
      (l.map fun t => { t with html := g t }).insertionSort (fun a b => b.id ≤ a.id) =
        (l.insertionSort fun a b => b.id ≤ a.id).map fun t => { t with html := g t } := by
  intro l
  induction l with
  | nil => rfl
  | cons a l ih =>
    simp only [List.map_cons, List.insertionSort, ih, orderedInsert_map_html]

/-- C9 confirmed: the listing projection (`TaskItem`, built from the
explicit column list of `api_tasks_list`) has no `html` field, and the
listing output is completely independent of the `html` column: rewriting
every stored task's content in any way leaves the response unchanged. -/
theorem C9_thm (st : Store) (g : TaskRow → String) :
    api_tasks_list (st.map fun t => { t with html := g t }) = api_tasks_list st := by
  unfold api_tasks_list
  rw [insertionSort_map_html, ← List.map_take, List.map_map]
  have hfun : (taskItem ∘ fun t => { t with html := g t }) = taskItem :=
    funext fun t => rfl
  rw [hfun]

/-! C10 -/

/-- C10 confirmed: a request without a `platform` key gets platform
`"blogspot"` (server.py line 717), and for a claimed task of any other
platform the executor fails it with `Unsupported platform: ...` — for every
publisher oracle, i.e. without the external publish call being consulted
(`run_task_publish` returns before touching `svc`, lines 819-820) — and the
loop records that failure on the task. -/
theorem C10_thm :
    (∀ (parse : String → Option Instant) (nowIso : String) (st : Store) (req : AddReq),
        req.platform = none → ∀ t ∈ (api_tasks_add parse nowIso st req).1, t ∉ st →
          t.platform = "blogspot") ∧
    (∀ (svc : Option PubOracle) (r : TaskRow), r.platform ≠ "blogspot" →
        run_task_publish svc r = (false, "", "Unsupported platform: " ++ r.platform)) ∧
    (∀ (parse : String → Option Instant) (now : Instant) (nowIso : String)
        (svc : Option PubOracle) (acc : Store × List (Nat × String)) (r : TaskRow),
        r.platform ≠ "blogspot" → ¬ now < (parse r.run_at).getD now →
          ∀ t ∈ (processRow parse now nowIso svc acc r).1, t.id = r.id →
            t.status = "err" ∧ t.error = some ("Unsupported platform: " ++ r.platform)) := by
  refine ⟨?_, ?_, ?_⟩
  · intro parse nowIso st req hreq t ht hnot
    simp only [api_tasks_add] at ht
    split at ht
    · exact absurd ht hnot
    · split at ht
      · exact absurd ht hnot
      · rcases List.mem_append.mp ht with h1 | h2
        · exact absurd h1 hnot
        · have he := List.mem_singleton.mp h2
          subst he
          show pyStrip (pyOr req.platform "blogspot") = "blogspot"
          rw [hreq]
          decide
  · intro svc r h
    unfold run_task_publish
    rw [if_pos h]
  · intro parse now nowIso svc acc r h hdue t ht hid
    have hrun : run_task_publish svc r =
        (false, "", "Unsupported platform: " ++ r.platform) := by
      unfold run_task_publish
      rw [if_pos h]
    simp only [processRow, hrun] at ht
    rw [if_neg hdue] at ht
    unfold finishUpdate at ht
    rw [if_neg (by simp)] at ht
    obtain ⟨u, -, -, he⟩ := of_mem_updateWhereId ht hid
    subst he
    exact ⟨rfl, rfl⟩

def tistoryTask : TaskRow := { goodTask with id := 4, platform := "tistory" }

/-- The row the loop records when it refuses the `tistory` platform. -/
def c10ErrTask : TaskRow :=
  { tistoryTask with status := "err", result_url := some "",
                     error := some ("Unsupported platform: " ++ "tistory"),
                     updated_at := "n" }

theorem C10_witness :
    newTask.platform = "blogspot" ∧
    run_task_publish none tistoryTask =
      (false, "", "Unsupported platform: " ++ "tistory") ∧
    (c10ErrTask.status = "err" ∧
      c10ErrTask.error = some ("Unsupported platform: " ++ "tistory")) :=
  ⟨C10_thm.1 parse0 "n" [] reqNoPlat rfl newTask (by decide) (by decide),
   C10_thm.2.1 none tistoryTask (by decide),
   C10_thm.2.2 parse0 0 "n" none ([tistoryTask], []) tistoryTask (by decide) (by decide)
     c10ErrTask (by decide) rfl⟩
